import Mathlib

/-!
# Kerberos task bridge (`lib/kerberos.cc`)

A shallow embedding of the native binding `Kerberos::AuthGSSClientInit`, the worker body
`_authGSSClientInit`, the result mapper `_map_authGSSClientInit` and the completion
dispatcher `Kerberos::After`.

Modelling conventions.

* Host (V8) values are the inductive `Value`.  Only the shapes the binding distinguishes
  are separate constructors; every other host value is `Value.other`.
* Host conversions on values the code does not constrain (`ToString` of a non-string,
  `ToInt32` of a non-integral value) are fields of `Host`.
* Function pointers stored in a `Worker` are names (`ExecuteFn`, `MapperFn`) interpreted by
  `callExecute` and `callMapper`; the names range over the functions of this file.
* `new Worker()` leaves its fields unset; the allocation is a parameter `fresh` giving the
  contents of the new record, and the code overwrites the fields it assigns.
* Side effects the properties below speak about are recorded as lists: the requests passed to
  `uv_queue_work`, the library calls made by the worker body and the `Event`s of the
  dispatcher.
* `node::FatalException` belongs to the host: whether it returns to the dispatcher or ends
  the process is the parameter `fatalReturns` of `Kerberos.After`.
* `malloc`, `calloc` and `free` are not modelled: a buffer is the value it holds.
-/

/-- Contents of a `gss_client_state` record after the library filled it; never interpreted
by the binding. -/
abbrev GssState := Nat

/-- The call struct `AuthGSSClientCall`: `uint32_t flags` and the C string `uri`. -/
structure AuthGSSClientCall where
  flags : Nat
  uri : String
deriving DecidableEq, Repr

/-- Modelled from the spec: the wrapper class `KerberosContext` (declared in
`kerberos_context.h`), a host-visible object owning one native client-state handle. -/
structure KerberosContext where
  state : GssState
deriving DecidableEq, Repr

/-- Host values as far as the binding distinguishes them. -/
inductive Value where
  | undefined
  | null
  | string (s : String)
  | number (i : Int)
  | function (id : Nat)
  | other (tag : Nat)
  | error (message : String)
  | context (c : KerberosContext)
deriving DecidableEq, Repr

namespace Value

/-- Host predicate `IsString`. -/
def IsString : Value → Bool
  | string _ => true
  | _ => false

/-- Host predicate `IsInt32`: an integral number in the signed 32-bit range. -/
def IsInt32 : Value → Bool
  | number i => decide (-2147483648 ≤ i ∧ i < 2147483648)
  | _ => false

/-- Host predicate `IsFunction`. -/
def IsFunction : Value → Bool
  | function _ => true
  | _ => false

end Value

/-- Conversions of the host runtime on the values the binding does not constrain. -/
structure Host where
  stringOf : Value → String
  int32Of : Value → Int

/-- Reduction of an integer into the signed 32-bit range. -/
def wrapInt32 (i : Int) : Int :=
  (i + 2147483648) % 4294967296 - 2147483648

/-- Host conversion `ToString`: the identity on strings. -/
def Host.ToString (h : Host) : Value → String
  | Value.string s => s
  | v => h.stringOf v

/-- Host conversion `ToInt32`: reduction modulo 2^32 into the signed range on integral
numbers. -/
def Host.ToInt32 (h : Host) : Value → Int
  | Value.number i => wrapInt32 i
  | v => wrapInt32 (h.int32Of v)

/-- Host accessor `Uint32Value` of an `Int32` value: the same 32 bits read unsigned. -/
def Uint32Value (i : Int) : Nat :=
  (i % 4294967296).toNat

/-- Names of the functions a `Worker` may hold in `execute`. -/
inductive ExecuteFn where
  | _authGSSClientInit
deriving DecidableEq, Repr

/-- Names of the functions a `Worker` may hold in `mapper`. -/
inductive MapperFn where
  | _map_authGSSClientInit
deriving DecidableEq, Repr

/-- Modelled from the spec: the Task record `Worker` (declared in `worker.h`), with the
fields `kerberos.cc` reads and writes. -/
structure Worker where
  callback : Value
  parameters : AuthGSSClientCall
  return_value : GssState
  error : Bool
  error_message : String
  error_code : Int
  execute : ExecuteFn
  mapper : MapperFn
deriving DecidableEq, Repr

/-- The authentication library as seen by the worker body: the constant `AUTH_GSS_ERROR`
of its header and the blocking call, which returns a status and fills the state record. -/
structure GssLibrary where
  AUTH_GSS_ERROR : Int
  authenticate_gss_client_init : String → Nat → Int × GssState

/-- One invocation of the library call, with the arguments it received. -/
structure LibraryCall where
  uri : String
  flags : Nat
deriving DecidableEq, Repr

/-- How a binding call ends: with a value, or with a pending exception. -/
inductive Completion where
  | returned (v : Value)
  | threw (exc : Value)
deriving DecidableEq, Repr

/-- Result of a binding call: its completion and the requests handed to `uv_queue_work`. -/
structure CallOutcome where
  completion : Completion
  queued : List Worker
deriving DecidableEq, Repr

/-- Observable steps of the completion dispatcher. -/
inductive Event where
  | mapped (m : MapperFn)
  | called (callback : Value) (args : List Value)
  | fatalException
  | disposed (callback : Value)
  | deleted
deriving DecidableEq, Repr

namespace Event

/-- The event is an invocation of a completion handler. -/
def isCalled : Event → Bool
  | called _ _ => true
  | _ => false

/-- The event is an invocation of a result mapper. -/
def isMapped : Event → Bool
  | mapped _ => true
  | _ => false

/-- The event is the release of a callback reference. -/
def isDisposed : Event → Bool
  | disposed _ => true
  | _ => false

end Event

/-- `VException`: raise a host `Error` carrying `msg` in the calling code. -/
def VException (msg : String) : Completion :=
  Completion.threw (Value.error msg)

/-- Worker body `_authGSSClientInit`: one library call on the unpacked parameters; the
status `AUTH_GSS_ERROR` marks the worker as failed, any other status stores the state. -/
def _authGSSClientInit (lib : GssLibrary) (worker : Worker) : Worker × List LibraryCall :=
  let call := worker.parameters
  let r := lib.authenticate_gss_client_init call.uri call.flags
  let result := r.1
  let state := r.2
  if result = lib.AUTH_GSS_ERROR then
    ({ worker with
        error := true
        error_code := result
        error_message := "Failed to initialize GSS client" },
      [⟨call.uri, call.flags⟩])
  else
    ({ worker with return_value := state }, [⟨call.uri, call.flags⟩])

/-- Result mapper `_map_authGSSClientInit`: a new context object holding the stored state. -/
def _map_authGSSClientInit (worker : Worker) : Value :=
  Value.context { state := worker.return_value }

/-- Call through the `execute` pointer of a worker. -/
def callExecute : ExecuteFn → GssLibrary → Worker → Worker × List LibraryCall
  | ExecuteFn._authGSSClientInit => _authGSSClientInit

/-- Call through the `mapper` pointer of a worker. -/
def callMapper : MapperFn → Worker → Value
  | MapperFn._map_authGSSClientInit => _map_authGSSClientInit

namespace Kerberos

/-- Indexing of `Arguments`: `undefined` past the end. -/
def arg (args : List Value) (i : Nat) : Value :=
  args.getD i Value.undefined

/-- The binding `Kerberos::AuthGSSClientInit`. -/
def AuthGSSClientInit (host : Host) (fresh : Worker) (args : List Value) : CallOutcome :=
  if args.length ≠ 3 then
    { completion := VException "Requires a service string uri, integer flags and a callback function", queued := [] }
  else if args.length = 3 && !(arg args 0).IsString && !(arg args 1).IsInt32
      && !(arg args 2).IsFunction then
    { completion := VException "Requires a service string uri, integer flags and a callback function", queued := [] }
  else
    let service := host.ToString (arg args 0)
    let service_str := service
    let call : AuthGSSClientCall :=
      { flags := Uint32Value (host.ToInt32 (arg args 1)), uri := service_str }
    let callback := arg args 2
    let worker : Worker :=
      { fresh with
          error := false
          callback := callback
          parameters := call
          execute := ExecuteFn._authGSSClientInit
          mapper := MapperFn._map_authGSSClientInit }
    { completion := Completion.returned Value.undefined, queued := [worker] }

/-- The thread-pool half `Kerberos::Process`: run the worker's `execute`. -/
def Process (lib : GssLibrary) (worker : Worker) : Worker × List LibraryCall :=
  callExecute worker.execute lib worker

/-- The completion dispatcher `Kerberos::After`.  `raises cb args` tells whether calling the
handler `cb` with `args` leaves an exception caught by the `TryCatch`; `fatalReturns` tells
whether `node::FatalException` hands control back (the exception was handled by a listener
of the host) or ends the process inside the report.  Each branch yields its events and
whether the statements after it are reached. -/
def After (raises : Value → List Value → Bool) (fatalReturns : Bool) (worker : Worker) :
    List Event :=
  let branch : List Event × Bool :=
    if worker.error then
      let err := Value.error worker.error_message
      let args := [err, Value.null]
      if raises worker.callback args then
        ([Event.called worker.callback args, Event.fatalException], fatalReturns)
      else
        ([Event.called worker.callback args], true)
    else
      let result := callMapper worker.mapper worker
      let args := [Value.null, result]
      if raises worker.callback args then
        ([Event.mapped worker.mapper, Event.called worker.callback args,
          Event.fatalException], fatalReturns)
      else
        ([Event.mapped worker.mapper, Event.called worker.callback args], true)
  if branch.2 then
    branch.1 ++ [Event.disposed worker.callback, Event.deleted]
  else
    branch.1

end Kerberos

/-- Sample host conversions for the concrete instances. -/
def sampleHost : Host :=
  { stringOf := fun _ => "[object]", int32Of := fun _ => 0 }

/-- Sample contents of a newly allocated `Worker`: every field holds a value the code
never assigns. -/
def staleWorker : Worker :=
  { callback := Value.other 99
    parameters := { flags := 77, uri := "stale" }
    return_value := 55
    error := true
    error_message := "stale"
    error_code := 33
    execute := ExecuteFn._authGSSClientInit
    mapper := MapperFn._map_authGSSClientInit }

/-- The worker the binding queues for the call `("bad", 0, callback)` on `staleWorker`. -/
def badCallWorker : Worker :=
  { staleWorker with
    error := false
    callback := Value.function 1
    parameters := { flags := 0, uri := "bad" } }

/-- A library whose header constant is `err` and whose call always returns `status` and
the state `st`. -/
def constLibrary (err status : Int) (st : GssState) : GssLibrary :=
  { AUTH_GSS_ERROR := err, authenticate_gss_client_init := fun _ _ => (status, st) }

/-- A handler behaviour that always returns normally. -/
def quiet : Value → List Value → Bool := fun _ _ => false

/-- A handler behaviour that always raises. -/
def noisy : Value → List Value → Bool := fun _ _ => true

/-! ## Auxiliary facts -/

theorem Uint32Value_of_nonneg (f : Int) (h0 : 0 ≤ f) (h1 : f < 4294967296) :
    (Uint32Value f : Int) = f := by
  unfold Uint32Value
  omega

theorem Uint32Value_of_neg (f : Int) (h0 : -4294967296 ≤ f) (h1 : f < 0) :
    (Uint32Value f : Int) = f + 4294967296 := by
  unfold Uint32Value
  omega

theorem wrapInt32_of_int32 (f : Int) (h0 : -2147483648 ≤ f) (h1 : f < 2147483648) :
    wrapInt32 f = f := by
  unfold wrapInt32
  omega

theorem IsInt32_number (f : Int) :
    (Value.number f).IsInt32 = true ↔ -2147483648 ≤ f ∧ f < 2147483648 := by
  simp [Value.IsInt32]

theorem After_calls (raises : Value → List Value → Bool) (fatalReturns : Bool)
    (w : Worker) :
    (Kerberos.After raises fatalReturns w).filter Event.isCalled =
      [Event.called w.callback
        (if w.error then [Value.error w.error_message, Value.null]
         else [Value.null, callMapper w.mapper w])] := by
  unfold Kerberos.After
  by_cases he : w.error = true
  · by_cases hr : raises w.callback [Value.error w.error_message, Value.null] = true
      <;> cases fatalReturns <;> simp [he, hr, Event.isCalled]
  · by_cases hr : raises w.callback [Value.null, callMapper w.mapper w] = true
      <;> cases fatalReturns <;> simp [he, hr, Event.isCalled]

theorem AuthGSSClientInit_of_int32_flags (host : Host) (fresh : Worker) (a0 a2 : Value)
    (f : Int) (hf : (Value.number f).IsInt32 = true) :
    Kerberos.AuthGSSClientInit host fresh [a0, Value.number f, a2] =
      { completion := Completion.returned Value.undefined
        queued := [{ fresh with
          error := false
          callback := a2
          parameters := { flags := Uint32Value f, uri := host.ToString a0 }
          execute := ExecuteFn._authGSSClientInit
          mapper := MapperFn._map_authGSSClientInit }] } := by
  have hw : wrapInt32 f = f := by
    rw [IsInt32_number] at hf
    exact wrapInt32_of_int32 f hf.1 hf.2
  simp [Kerberos.AuthGSSClientInit, Kerberos.arg, hf, Host.ToInt32, hw]

theorem authGSSClientInit_calls (lib : GssLibrary) (w : Worker) :
    (_authGSSClientInit lib w).2 = [⟨w.parameters.uri, w.parameters.flags⟩] := by
  by_cases h : (lib.authenticate_gss_client_init w.parameters.uri w.parameters.flags).1
      = lib.AUTH_GSS_ERROR
  · simp [_authGSSClientInit, h]
  · simp [_authGSSClientInit, h]

theorem authGSSClientInit_of_error (lib : GssLibrary) (w : Worker)
    (h : (lib.authenticate_gss_client_init w.parameters.uri w.parameters.flags).1
      = lib.AUTH_GSS_ERROR) :
    (_authGSSClientInit lib w).1 =
      { w with
        error := true
        error_code := (lib.authenticate_gss_client_init w.parameters.uri w.parameters.flags).1
        error_message := "Failed to initialize GSS client" } := by
  simp [_authGSSClientInit, h]

theorem authGSSClientInit_of_other (lib : GssLibrary) (w : Worker)
    (h : (lib.authenticate_gss_client_init w.parameters.uri w.parameters.flags).1
      ≠ lib.AUTH_GSS_ERROR) :
    (_authGSSClientInit lib w).1 =
      { w with
        return_value :=
          (lib.authenticate_gss_client_init w.parameters.uri w.parameters.flags).2 } := by
  simp [_authGSSClientInit, h]

theorem Process_eq (lib : GssLibrary) (w : Worker) :
    Kerberos.Process lib w = _authGSSClientInit lib w := by
  rcases w with ⟨cb, ps, rv, er, em, ec, ex, mp⟩
  cases ex
  rfl

/-! ## The completion dispatcher -/

/-- C1: whatever the worker handed to `Kerberos::After` holds (error flag set or clear),
whether the handler returns or raises and whether the fatal report returns, the handler
stored in the worker is invoked exactly once, with two arguments `(error, result)` of which
exactly one is not `null`. -/
theorem After_invokes_handler_exactly_once (raises : Value → List Value → Bool)
    (fatalReturns : Bool) (w : Worker) :
    ∃ e r, (Kerberos.After raises fatalReturns w).filter Event.isCalled
        = [Event.called w.callback [e, r]]
      ∧ ((e ≠ Value.null ∧ r = Value.null) ∨ (e = Value.null ∧ r ≠ Value.null)) := by
  rw [After_calls]
  by_cases he : w.error = true
  · exact ⟨Value.error w.error_message, Value.null, by simp [he], Or.inl ⟨by simp, rfl⟩⟩
  · refine ⟨Value.null, callMapper w.mapper w, by simp [he], Or.inr ⟨rfl, ?_⟩⟩
    cases w.mapper
    simp [callMapper, _map_authGSSClientInit]

/-- C4: for a worker whose error flag is set, `Kerberos::After` invokes the handler with
`(error_object, null)` where the error object carries the worker's `error_message`; the
result mapper is not invoked and no context wrapper appears among the handler arguments. -/
theorem After_failure_passes_error_only (raises : Value → List Value → Bool)
    (fatalReturns : Bool) (w : Worker) (h : w.error = true) :
    (Kerberos.After raises fatalReturns w).filter Event.isCalled
        = [Event.called w.callback [Value.error w.error_message, Value.null]]
      ∧ (Kerberos.After raises fatalReturns w).filter Event.isMapped = []
      ∧ ∀ cb args c, Event.called cb args ∈ Kerberos.After raises fatalReturns w →
          Value.context c ∉ args := by
  refine ⟨by rw [After_calls]; simp [h], ?_, ?_⟩
  · unfold Kerberos.After
    by_cases hr : raises w.callback [Value.error w.error_message, Value.null] = true
      <;> cases fatalReturns <;> simp [h, hr, Event.isMapped]
  · intro cb args c hmem
    have hin : Event.called cb args
        ∈ (Kerberos.After raises fatalReturns w).filter Event.isCalled :=
      List.mem_filter.mpr ⟨hmem, rfl⟩
    rw [After_calls] at hin
    simp [h] at hin
    simp [hin.2]

/-- Witness of C4: a failed worker with the fixed message and a raising handler. -/
theorem After_failure_passes_error_only_witness :
    ({ staleWorker with error_message := "Failed to initialize GSS client" } : Worker).error
        = true
      ∧ (Kerberos.After noisy true
          { staleWorker with error_message := "Failed to initialize GSS client" }).filter
            Event.isCalled
        = [Event.called (Value.other 99)
            [Value.error "Failed to initialize GSS client", Value.null]]
      ∧ (Kerberos.After noisy true
          { staleWorker with error_message := "Failed to initialize GSS client" }).filter
            Event.isMapped = [] :=
  ⟨rfl,
    (After_failure_passes_error_only noisy true
      { staleWorker with error_message := "Failed to initialize GSS client" } rfl).1,
    (After_failure_passes_error_only noisy true
      { staleWorker with error_message := "Failed to initialize GSS client" } rfl).2.1⟩

/-- C7: in `Kerberos::After`, for a failed and for a successful worker alike, the handler is
invoked once and `node::FatalException` is notified once when that invocation raised and
not at all when it returned normally. -/
theorem After_reports_handler_failure_once (raises : Value → List Value → Bool)
    (fatalReturns : Bool) (w : Worker) :
    ∃ args, (Kerberos.After raises fatalReturns w).filter Event.isCalled
        = [Event.called w.callback args]
      ∧ (Kerberos.After raises fatalReturns w).count Event.fatalException
        = (if raises w.callback args then 1 else 0) := by
  by_cases he : w.error = true
  · refine ⟨[Value.error w.error_message, Value.null], by rw [After_calls]; simp [he], ?_⟩
    unfold Kerberos.After
    by_cases hr : raises w.callback [Value.error w.error_message, Value.null] = true
      <;> cases fatalReturns <;> simp [he, hr, List.count_cons]
  · refine ⟨[Value.null, callMapper w.mapper w], by rw [After_calls]; simp [he], ?_⟩
    unfold Kerberos.After
    by_cases hr : raises w.callback [Value.null, callMapper w.mapper w] = true
      <;> cases fatalReturns <;> simp [he, hr, List.count_cons]

/-- C8, counterexample: for the successful worker of the call `("bad", 0, callback)`, a
handler that raises and a fatal report that ends the process, `Kerberos::After` maps,
calls the handler, reports, and reaches neither the release of the callback reference nor
the deletion of the worker. -/
theorem After_fatal_exit_skips_cleanup :
    Kerberos.After noisy false badCallWorker =
        [Event.mapped MapperFn._map_authGSSClientInit,
          Event.called (Value.function 1) [Value.null, Value.context { state := 55 }],
          Event.fatalException]
      ∧ (Kerberos.After noisy false badCallWorker).filter Event.isDisposed = []
      ∧ (Kerberos.After noisy false badCallWorker).count Event.deleted = 0 := by
  decide

/-- C8, amended: in every run of `Kerberos::After` the handler is invoked and no release
or deletion happens up to the end of the branch.  When the handler returned normally, or
raised and `node::FatalException` returned, the run then ends with the release of the
worker's callback reference followed by the deletion of the worker, each exactly once; when
the handler raised and the fatal report ended the process, neither is reached. -/
theorem After_releases_and_destroys_unless_fatal_exit (raises : Value → List Value → Bool)
    (fatalReturns : Bool) (w : Worker) :
    ∃ before args,
      Event.called w.callback args ∈ before
      ∧ (∀ e ∈ before, e.isDisposed = false ∧ e ≠ Event.deleted)
      ∧ Kerberos.After raises fatalReturns w
          = before ++ (if raises w.callback args && !fatalReturns then []
              else [Event.disposed w.callback, Event.deleted])
      ∧ (Kerberos.After raises fatalReturns w).filter Event.isDisposed
          = (if raises w.callback args && !fatalReturns then []
              else [Event.disposed w.callback])
      ∧ (Kerberos.After raises fatalReturns w).count Event.deleted
          = (if raises w.callback args && !fatalReturns then 0 else 1) := by
  by_cases he : w.error = true
  · by_cases hr : raises w.callback [Value.error w.error_message, Value.null] = true
    · refine ⟨[Event.called w.callback [Value.error w.error_message, Value.null],
          Event.fatalException], [Value.error w.error_message, Value.null], ?_, ?_, ?_, ?_, ?_⟩
      · simp
      · simp [Event.isDisposed]
      · cases fatalReturns <;> simp [Kerberos.After, he, hr]
      · cases fatalReturns <;> simp [Kerberos.After, he, hr, Event.isDisposed]
      · cases fatalReturns <;> simp [Kerberos.After, he, hr, List.count_cons]
    · refine ⟨[Event.called w.callback [Value.error w.error_message, Value.null]],
        [Value.error w.error_message, Value.null], ?_, ?_, ?_, ?_, ?_⟩
      · simp
      · simp [Event.isDisposed]
      · simp [Kerberos.After, he, hr]
      · simp [Kerberos.After, he, hr, Event.isDisposed]
      · simp [Kerberos.After, he, hr, List.count_cons]
  · by_cases hr : raises w.callback [Value.null, callMapper w.mapper w] = true
    · refine ⟨[Event.mapped w.mapper,
          Event.called w.callback [Value.null, callMapper w.mapper w], Event.fatalException],
        [Value.null, callMapper w.mapper w], ?_, ?_, ?_, ?_, ?_⟩
      · simp
      · simp [Event.isDisposed]
      · cases fatalReturns <;> simp [Kerberos.After, he, hr]
      · cases fatalReturns <;> simp [Kerberos.After, he, hr, Event.isDisposed]
      · cases fatalReturns <;> simp [Kerberos.After, he, hr, List.count_cons]
    · refine ⟨[Event.mapped w.mapper,
          Event.called w.callback [Value.null, callMapper w.mapper w]],
        [Value.null, callMapper w.mapper w], ?_, ?_, ?_, ?_, ?_⟩
      · simp
      · simp [Event.isDisposed]
      · simp [Kerberos.After, he, hr]
      · simp [Kerberos.After, he, hr, Event.isDisposed]
      · simp [Kerberos.After, he, hr, List.count_cons]

/-! ## The binding and the worker body -/

/-- C6: a call of `authGSSClientInit` whose argument count is not 3 ends with the pending
exception `Error("Requires a service string uri, integer flags and a callback function")`
and hands no request to the scheduler, so no argument is stored as a handler. -/
theorem AuthGSSClientInit_rejects_wrong_arity (host : Host) (fresh : Worker)
    (args : List Value) (h : args.length ≠ 3) :
    Kerberos.AuthGSSClientInit host fresh args =
      { completion := Completion.threw
          (Value.error "Requires a service string uri, integer flags and a callback function")
        queued := [] } := by
  simp [Kerberos.AuthGSSClientInit, h, VException]

/-- Witness of C6: a call with only two arguments. -/
theorem AuthGSSClientInit_rejects_wrong_arity_witness :
    [Value.string "service@host", Value.number 0].length ≠ 3
      ∧ Kerberos.AuthGSSClientInit sampleHost staleWorker
          [Value.string "service@host", Value.number 0] =
        { completion := Completion.threw
            (Value.error
              "Requires a service string uri, integer flags and a callback function")
          queued := [] } :=
  ⟨by decide,
    AuthGSSClientInit_rejects_wrong_arity sampleHost staleWorker
      [Value.string "service@host", Value.number 0] (by decide)⟩

/-- C5, the code at the failing input: with a string, an int32 and `null` in place of the
callback, the binding raises nothing, returns `undefined` and queues one worker whose
callback is `null`. -/
theorem AuthGSSClientInit_accepts_null_callback :
    Kerberos.AuthGSSClientInit sampleHost staleWorker
        [Value.string "service@host", Value.number 0, Value.null] =
      { completion := Completion.returned Value.undefined
        queued := [{ staleWorker with
          error := false
          callback := Value.null
          parameters := { flags := 0, uri := "service@host" } }] } := by
  decide

/-- The argument check of the binding raises exactly when the count is not 3 or all three
arguments have the wrong type at once. -/
theorem AuthGSSClientInit_throws_iff (host : Host) (fresh : Worker) (args : List Value) :
    (Kerberos.AuthGSSClientInit host fresh args).queued = [] ↔
      (args.length ≠ 3 ∨ ((Kerberos.arg args 0).IsString = false
        ∧ (Kerberos.arg args 1).IsInt32 = false ∧ (Kerberos.arg args 2).IsFunction = false)) := by
  unfold Kerberos.AuthGSSClientInit
  by_cases hl : args.length = 3
  · by_cases h0 : (Kerberos.arg args 0).IsString = true
    · simp [hl, h0]
    · by_cases h1 : (Kerberos.arg args 1).IsInt32 = true
      · simp [hl, h0, h1]
      · by_cases h2 : (Kerberos.arg args 2).IsFunction = true
        · simp [hl, h0, h1, h2]
        · simp [hl, h0, h1, h2]
  · simp [hl]

/-- C10: for an int32 flags value `f` in a three-argument call, the flags stored in the
worker's parameters, and passed to the library call, are `f mod 2^32`: `f` itself when
`f` is not negative and `f + 2^32` when it is. -/
theorem flags_stored_as_uint32 (host : Host) (fresh : Worker) (lib : GssLibrary)
    (a0 a2 : Value) (f : Int) (hf : (Value.number f).IsInt32 = true) :
    ∃ w, (Kerberos.AuthGSSClientInit host fresh [a0, Value.number f, a2]).queued = [w]
      ∧ (w.parameters.flags : Int) = f % 4294967296
      ∧ (0 ≤ f → (w.parameters.flags : Int) = f)
      ∧ (f < 0 → (w.parameters.flags : Int) = f + 4294967296)
      ∧ (Kerberos.Process lib w).2.map LibraryCall.flags = [w.parameters.flags] := by
  have hr := (IsInt32_number f).mp hf
  refine ⟨_, by rw [AuthGSSClientInit_of_int32_flags host fresh a0 a2 f hf], ?_, ?_, ?_, ?_⟩
  · simp only [Uint32Value]
    omega
  · intro h0
    exact Uint32Value_of_nonneg f h0 (by omega)
  · intro h0
    exact Uint32Value_of_neg f (by omega) h0
  · simp [Kerberos.Process, callExecute, authGSSClientInit_calls]

/-- Witness of C10: flags `-1` are stored and passed as `4294967295`. -/
theorem flags_stored_as_uint32_witness :
    (Value.number (-1)).IsInt32 = true
      ∧ ∃ w, (Kerberos.AuthGSSClientInit sampleHost staleWorker
            [Value.string "service@host", Value.number (-1), Value.function 1]).queued = [w]
        ∧ w.parameters.flags = 4294967295
        ∧ (Kerberos.Process (constLibrary (-1) 1 7) w).2.map LibraryCall.flags
            = [4294967295] := by
  refine ⟨by decide, ?_⟩
  obtain ⟨w, hq, _, _, hneg, hcall⟩ :=
    flags_stored_as_uint32 sampleHost staleWorker (constLibrary (-1) 1 7)
      (Value.string "service@host") (Value.function 1) (-1) (by decide)
  have hflags : w.parameters.flags = 4294967295 := by
    have := hneg (by decide)
    omega
  exact ⟨w, hq, hflags, by rw [hcall, hflags]⟩

/-- C2: for a call `(uri, flags, callback)` with a string, an int32 and a function, when the
library call returns a status the worker body takes as success (any status other than
`AUTH_GSS_ERROR`) together with the state `H`, running the queued worker and then
`Kerberos::After` invokes the supplied handler once, with `(null, wrapper)` where the
wrapper made by `_map_authGSSClientInit` holds exactly `H`, whatever the handler and the
fatal report then do. -/
theorem success_reaches_handler_with_state (host : Host) (fresh : Worker) (lib : GssLibrary)
    (raises : Value → List Value → Bool) (fatalReturns : Bool) (uri : String) (flags : Int)
    (cb : Nat) (status : Int) (H : GssState)
    (hflags : (Value.number flags).IsInt32 = true)
    (hlib : lib.authenticate_gss_client_init uri (Uint32Value flags) = (status, H))
    (hok : status ≠ lib.AUTH_GSS_ERROR) :
    ∃ w, (Kerberos.AuthGSSClientInit host fresh
          [Value.string uri, Value.number flags, Value.function cb]).queued = [w]
      ∧ (Kerberos.Process lib w).1.error = false
      ∧ _map_authGSSClientInit (Kerberos.Process lib w).1 = Value.context { state := H }
      ∧ (Kerberos.After raises fatalReturns (Kerberos.Process lib w).1).filter Event.isMapped
          = [Event.mapped MapperFn._map_authGSSClientInit]
      ∧ (Kerberos.After raises fatalReturns (Kerberos.Process lib w).1).filter Event.isCalled
          = [Event.called (Value.function cb) [Value.null, Value.context { state := H }]] := by
  refine ⟨_, by rw [AuthGSSClientInit_of_int32_flags host fresh _ _ flags hflags], ?_⟩
  have hne : (lib.authenticate_gss_client_init uri (Uint32Value flags)).1
      ≠ lib.AUTH_GSS_ERROR := by rw [hlib]; exact hok
  rw [Process_eq, authGSSClientInit_of_other lib _ (by simpa [Host.ToString] using hne)]
  refine ⟨rfl, by simp [_map_authGSSClientInit, Host.ToString, hlib], ?_, ?_⟩
  · unfold Kerberos.After
    by_cases hr : raises (Value.function cb)
        [Value.null, Value.context { state := H }] = true
      <;> cases fatalReturns
      <;> simp [hr, callMapper, _map_authGSSClientInit, Event.isMapped, Host.ToString, hlib]
  · rw [After_calls]
    simp [callMapper, _map_authGSSClientInit, Host.ToString, hlib]

/-- Witness of C2: `uri = "service@host"`, `flags = 0`, the library returns status 0 with
the state 7 and its error constant is -1. -/
theorem success_reaches_handler_with_state_witness :
    (Value.number 0).IsInt32 = true
      ∧ (constLibrary (-1) 0 7).authenticate_gss_client_init "service@host" (Uint32Value 0)
          = (0, 7)
      ∧ (0 : Int) ≠ (constLibrary (-1) 0 7).AUTH_GSS_ERROR
      ∧ ∃ w, (Kerberos.AuthGSSClientInit sampleHost staleWorker
            [Value.string "service@host", Value.number 0, Value.function 1]).queued = [w]
        ∧ (Kerberos.Process (constLibrary (-1) 0 7) w).1.error = false
        ∧ _map_authGSSClientInit (Kerberos.Process (constLibrary (-1) 0 7) w).1
            = Value.context { state := 7 }
        ∧ (Kerberos.After quiet true (Kerberos.Process (constLibrary (-1) 0 7) w).1).filter
              Event.isMapped
            = [Event.mapped MapperFn._map_authGSSClientInit]
        ∧ (Kerberos.After quiet true (Kerberos.Process (constLibrary (-1) 0 7) w).1).filter
              Event.isCalled
            = [Event.called (Value.function 1) [Value.null, Value.context { state := 7 }]] :=
  ⟨by decide, rfl, by decide,
    success_reaches_handler_with_state sampleHost staleWorker (constLibrary (-1) 0 7) quiet
      true "service@host" 0 1 0 7 (by decide) rfl (by decide)⟩

/-- C3, counterexample: for the call `("bad", 0, callback)` and a library whose error
constant is -1, the non-zero status 1 leaves the error flag clear, stores the state and
leads to a handler call with `(null, wrapper)`; and whatever the value of the error
constant, some non-zero status is not recorded as a failure. -/
theorem nonzero_status_recorded_as_success :
    (Kerberos.AuthGSSClientInit sampleHost staleWorker
        [Value.string "bad", Value.number 0, Value.function 1]).queued.map
          (fun w => ((Kerberos.Process (constLibrary (-1) 1 7) w).1.error,
            (Kerberos.After quiet true (Kerberos.Process (constLibrary (-1) 1 7) w).1).filter
              Event.isCalled))
        = [(false,
            [Event.called (Value.function 1) [Value.null, Value.context { state := 7 }]])]
      ∧ ¬ ∃ err : Int, ∀ (status : Int) (st : GssState) (w : Worker), status ≠ 0 →
          (_authGSSClientInit (constLibrary err status st) w).1.error = true := by
  refine ⟨by decide, ?_⟩
  rintro ⟨err, h⟩
  by_cases he : err = 1
  · have h2 := h 2 0 { staleWorker with error := false } (by decide)
    simp [_authGSSClientInit, constLibrary, he] at h2
  · have h1 := h 1 0 { staleWorker with error := false } (by decide)
    have hne : ¬ (1 : Int) = err := fun hh => he hh.symm
    simp [_authGSSClientInit, constLibrary, hne] at h1

/-- C3, amended: on a worker whose error flag is clear, `_authGSSClientInit` sets the flag
exactly when the library call returns `AUTH_GSS_ERROR`.  In that case `error_code` is that
status, `error_message` is "Failed to initialize GSS client" and `Kerberos::After` invokes
the handler with `(Error{message = "Failed to initialize GSS client"}, null)`.  Any other
status, zero or not, stores the state and is delivered as `(null, wrapper)`. -/
theorem authGSSClientInit_fails_exactly_on_AUTH_GSS_ERROR (lib : GssLibrary) (w : Worker)
    (raises : Value → List Value → Bool) (fatalReturns : Bool)
    (hclear : w.error = false) :
    ((_authGSSClientInit lib w).1.error = true ↔
        (lib.authenticate_gss_client_init w.parameters.uri w.parameters.flags).1
          = lib.AUTH_GSS_ERROR)
      ∧ ((lib.authenticate_gss_client_init w.parameters.uri w.parameters.flags).1
            = lib.AUTH_GSS_ERROR →
          (_authGSSClientInit lib w).1.error_code = lib.AUTH_GSS_ERROR
          ∧ (_authGSSClientInit lib w).1.error_message = "Failed to initialize GSS client"
          ∧ (Kerberos.After raises fatalReturns (_authGSSClientInit lib w).1).filter Event.isCalled
              = [Event.called w.callback
                  [Value.error "Failed to initialize GSS client", Value.null]])
      ∧ ((lib.authenticate_gss_client_init w.parameters.uri w.parameters.flags).1
            ≠ lib.AUTH_GSS_ERROR →
          (_authGSSClientInit lib w).1.return_value
              = (lib.authenticate_gss_client_init w.parameters.uri w.parameters.flags).2
          ∧ (Kerberos.After raises fatalReturns (_authGSSClientInit lib w).1).filter Event.isCalled
              = [Event.called w.callback
                  [Value.null, callMapper w.mapper (_authGSSClientInit lib w).1]]) := by
  refine ⟨?_, ?_, ?_⟩
  · by_cases h : (lib.authenticate_gss_client_init w.parameters.uri w.parameters.flags).1
        = lib.AUTH_GSS_ERROR
    · simp [authGSSClientInit_of_error lib w h, h]
    · simp [authGSSClientInit_of_other lib w h, h, hclear]
  · intro h
    rw [After_calls, authGSSClientInit_of_error lib w h]
    simp [h]
  · intro h
    rw [After_calls, authGSSClientInit_of_other lib w h]
    simp [hclear]

/-- Witness of C3 as amended: for the worker of the call `("bad", 0, callback)` and the
error constant -1, the status -1 is recorded as a failure with the fixed message and
delivered as `(Error, null)`, and the status 1 is recorded as a success holding the state
7. -/
theorem authGSSClientInit_fails_exactly_on_AUTH_GSS_ERROR_witness :
    badCallWorker.error = false
      ∧ ((_authGSSClientInit (constLibrary (-1) (-1) 7) badCallWorker).1.error_code = -1
        ∧ (_authGSSClientInit (constLibrary (-1) (-1) 7) badCallWorker).1.error_message
              = "Failed to initialize GSS client"
        ∧ (Kerberos.After quiet true
              (_authGSSClientInit (constLibrary (-1) (-1) 7) badCallWorker).1).filter
                Event.isCalled
              = [Event.called (Value.function 1)
                  [Value.error "Failed to initialize GSS client", Value.null]])
      ∧ (_authGSSClientInit (constLibrary (-1) 1 7) badCallWorker).1.return_value = 7 :=
  ⟨rfl,
    (authGSSClientInit_fails_exactly_on_AUTH_GSS_ERROR (constLibrary (-1) (-1) 7)
      badCallWorker quiet true rfl).2.1 rfl,
    ((authGSSClientInit_fails_exactly_on_AUTH_GSS_ERROR (constLibrary (-1) 1 7)
      badCallWorker quiet true rfl).2.2 (by decide)).1⟩
